import Mathlib

/-!
Verification development for the football-match-tracker repository.

The development shallowly embeds the parts of the code the claims are
about:

* `src/api_client.py` — `APIFootballClient.parse_fixture` (the fixture
  normalizer) and its status mapping;
* `src/database.py` — the SQLite-backed `DatabaseManager`: the
  `fixtures` and `attended_matches` tables and the operations
  `insert_fixture`, `mark_attended`, `get_fixtures`, `get_statistics`;
* `src/service.py` — `FootballMatchService.sync_team_fixtures` and the
  fixed `COMPETITIONS` table.

Modelling conventions:

* A table is a list of row structures; a nullable column is an `Option`
  field, a NOT NULL column a plain field.  The `teams` and `leagues`
  tables are declared by `initialize_database` but never written or read
  by any operation of the repository, so they are omitted from the
  state.  The AUTOINCREMENT surrogate key `attended_matches.id` is never
  read by any query and is likewise omitted.
* `CURRENT_TIMESTAMP` is abstracted as an integer clock value `now`
  passed to each state-changing operation.  The `date` column stores the
  text value supplied by the caller (SQLite stores the Python datetime
  as ISO text) and `ORDER BY f.date` compares it with the string order.
* SQL three-valued logic: a comparison with a NULL operand yields NULL,
  which behaves as false inside `CASE WHEN` and `WHERE`; the `sqlGt`,
  `sqlLt`, `sqlEq` helpers encode this.
* Python truthiness of the optional filter arguments (`if team_id:`,
  `if status:`): `None`, `0` and `""` are falsy.
* Exceptions are modelled with `Except`; the remote HTTP fetch performed
  by `sync_team_fixtures` is I/O and is abstracted as an explicit
  `Except String (List RawFixtureRecord)` argument holding either the
  fetched raw records or a transport error.
-/

namespace FootballTracker

/-- Python truthiness of an optional integer argument (for tests such as
`if team_id:` in `get_fixtures` and `get_statistics`): `None` and `0`
are falsy. -/
def truthyInt : Option Int → Bool
  | none => false
  | some t => t != 0

/-- Python truthiness of an optional string argument (`if status:`):
`None` and the empty string are falsy. -/
def truthyStr : Option String → Bool
  | none => false
  | some s => s != ""

/-- SQL comparison `a > b` as it behaves inside `CASE WHEN ... THEN 1
ELSE 0`: a NULL operand makes the comparison NULL, which fails the WHEN
test. -/
def sqlGt : Option Int → Option Int → Bool
  | some a, some b => a > b
  | _, _ => false

/-- SQL comparison `a < b` under the same three-valued convention. -/
def sqlLt : Option Int → Option Int → Bool
  | some a, some b => a < b
  | _, _ => false

/-- SQL comparison `a = b`: NULL is not equal to anything, including
NULL. -/
def sqlEq : Option Int → Option Int → Bool
  | some a, some b => a == b
  | _, _ => false

/-! ### The persistent store (src/database.py) -/

/-- A row of the `fixtures` table created by `initialize_database`
(src/database.py lines 63-91).  Columns declared NOT NULL (`date`,
`status`, `home_team_name`, `away_team_name`) are plain fields, the
nullable columns are `Option`s, and `fixture_id` is the INTEGER PRIMARY
KEY. -/
structure FixtureRow where
  fixture_id : Int
  date : String
  timestamp : Option Int
  venue : Option String
  venue_city : Option String
  status : String
  status_long : Option String
  league_id : Option Int
  season : Option Int
  round : Option String
  home_team_id : Option Int
  home_team_name : String
  away_team_id : Option Int
  away_team_name : String
  home_goals : Option Int
  away_goals : Option Int
  halftime_home : Option Int
  halftime_away : Option Int
  fulltime_home : Option Int
  fulltime_away : Option Int
  created_at : Int
  updated_at : Int
  deriving DecidableEq

/-- A row of the `attended_matches` table (src/database.py lines
93-102): a fixture id with the attendance timestamp and optional notes.
The table carries `UNIQUE(fixture_id)`; the AUTOINCREMENT surrogate id
is read by no query and is omitted. -/
structure AttendanceRow where
  fixture_id : Int
  attended_date : Int
  notes : Option String
  deriving DecidableEq

/-- The persistent store owned by `DatabaseManager`: the `fixtures` and
`attended_matches` tables.  The `teams` and `leagues` tables are created
by the schema but no operation of the repository ever writes or reads
them, so they carry no state. -/
structure DB where
  fixtures : List FixtureRow
  attended : List AttendanceRow
  deriving DecidableEq

/-- The values `insert_fixture` reads out of its `fixture_data` dict
(src/database.py lines 142-161).  `fixture_id` is `Option` because the
normalizer can produce a None id; the NOT NULL columns are taken as
present (a record lacking one would make the INSERT raise, and every
record produced by `parse_fixture` supplies them). -/
structure FixtureData where
  fixture_id : Option Int
  date : String
  timestamp : Option Int
  venue : Option String
  venue_city : Option String
  status : String
  status_long : Option String
  league_id : Option Int
  season : Option Int
  round : Option String
  home_team_id : Option Int
  home_team_name : String
  away_team_id : Option Int
  away_team_name : String
  home_goals : Option Int
  away_goals : Option Int
  halftime_home : Option Int
  halftime_away : Option Int
  fulltime_home : Option Int
  fulltime_away : Option Int
  deriving DecidableEq

/-- The row written by `INSERT OR REPLACE INTO fixtures ...` for primary
key `i` at clock `now`: every listed column comes from the record,
`updated_at` is set to CURRENT_TIMESTAMP by the statement, and
`created_at` — absent from the column list — takes its declared default
CURRENT_TIMESTAMP. -/
def rowOfData (i : Int) (fd : FixtureData) (now : Int) : FixtureRow :=
  { fixture_id := i
    date := fd.date
    timestamp := fd.timestamp
    venue := fd.venue
    venue_city := fd.venue_city
    status := fd.status
    status_long := fd.status_long
    league_id := fd.league_id
    season := fd.season
    round := fd.round
    home_team_id := fd.home_team_id
    home_team_name := fd.home_team_name
    away_team_id := fd.away_team_id
    away_team_name := fd.away_team_name
    home_goals := fd.home_goals
    away_goals := fd.away_goals
    halftime_home := fd.halftime_home
    halftime_away := fd.halftime_away
    fulltime_home := fd.fulltime_home
    fulltime_away := fd.fulltime_away
    created_at := now
    updated_at := now }

/-- SQLite rowid assignment when an INTEGER PRIMARY KEY is inserted as
NULL: one larger than the largest id in the table. -/
def freshId (db : DB) : Int :=
  (db.fixtures.map (fun r => r.fixture_id)).foldr max 0 + 1

/-- `DatabaseManager.insert_fixture` (src/database.py lines 119-164):
`INSERT OR REPLACE` keyed on the primary key `fixture_id` deletes any
conflicting row and inserts a fresh one built by `rowOfData`; the
attendance table is untouched and the method returns True. -/
def insert_fixture (db : DB) (fd : FixtureData) (now : Int) : DB × Bool :=
  match fd.fixture_id with
  | some i =>
      ({ db with
          fixtures :=
            db.fixtures.filter (fun r => r.fixture_id != i) ++ [rowOfData i fd now] },
        true)
  | none =>
      ({ db with fixtures := db.fixtures ++ [rowOfData (freshId db) fd now] }, true)

/-- `DatabaseManager.mark_attended` (src/database.py lines 166-187): the
INSERT hits the `UNIQUE(fixture_id)` constraint exactly when a mark for
the fixture already exists; the resulting IntegrityError is caught and
returned as False with the state unchanged, otherwise the new mark is
stored and the method returns True. -/
def mark_attended (db : DB) (fixture_id : Int) (notes : Option String) (now : Int) :
    DB × Bool :=
  if db.attended.any (fun m => m.fixture_id == fixture_id) then
    (db, false)
  else
    ({ db with attended := db.attended ++ [⟨fixture_id, now, notes⟩] }, true)

/-- `DatabaseManager.unmark_attended` (src/database.py lines 189-204):
DELETE of the mark, returning whether a row was removed. -/
def unmark_attended (db : DB) (fixture_id : Int) : DB × Bool :=
  (({ db with attended := db.attended.filter (fun m => m.fixture_id != fixture_id) }),
    db.attended.any (fun m => m.fixture_id == fixture_id))

/-- One result row of `get_fixtures`: the fixture columns `f.*` plus the
join columns `attended` (the `CASE WHEN am.fixture_id IS NOT NULL THEN 1
ELSE 0` integer), `am.attended_date` and `am.notes`. -/
structure FixtureView where
  row : FixtureRow
  attended : Nat
  attended_date : Option Int
  notes : Option String
  deriving DecidableEq

/-- The rows contributed by one fixture to `LEFT JOIN attended_matches
am ON f.fixture_id = am.fixture_id`: with no matching mark, a single row
with NULL join columns; otherwise one row per matching mark (the UNIQUE
constraint makes that at most one in reachable states, but the join
itself does not assume it). -/
def leftJoinRows (db : DB) (f : FixtureRow) : List FixtureView :=
  let ms := db.attended.filter (fun m => m.fixture_id == f.fixture_id)
  if ms.isEmpty then [⟨f, 0, none, none⟩]
  else ms.map (fun m => ⟨f, 1, some m.attended_date, m.notes⟩)

/-- The full `FROM fixtures f LEFT JOIN attended_matches am` relation of
`get_fixtures`. -/
def fixturesJoin (db : DB) : List FixtureView :=
  db.fixtures.flatMap (leftJoinRows db)

/-- The clause `(f.home_team_id = ? OR f.away_team_id = ?)`, appended by
`get_fixtures` only when `team_id` is truthy. -/
def teamFilter : Option Int → FixtureView → Bool
  | some t, v =>
      if t != 0 then v.row.home_team_id == some t || v.row.away_team_id == some t
      else true
  | none, _ => true

/-- The clause `f.status = ?`, appended by `get_fixtures` only when
`status` is truthy. -/
def statusFilter : Option String → FixtureView → Bool
  | some s, v => if s != "" then v.row.status == s else true
  | none, _ => true

/-- The WHERE clause assembled by `get_fixtures` (src/database.py lines
236-247): each filter is appended only when its argument is truthy, and
the clauses are conjoined.  The `attended_only` clause
`am.fixture_id IS NOT NULL` holds exactly on rows whose join matched,
i.e. whose `attended` column is 1. -/
def passesFilters (team_id : Option Int) (status : Option String) (attended_only : Bool)
    (v : FixtureView) : Bool :=
  teamFilter team_id v && statusFilter status v && (!attended_only || v.attended == 1)

/-- The `ORDER BY f.date DESC` relation: earlier rows carry a date that
is at least the later row's date in the string order. -/
def dateDesc (a b : FixtureView) : Prop := b.row.date ≤ a.row.date

instance : DecidableRel dateDesc := fun a b =>
  inferInstanceAs (Decidable (b.row.date ≤ a.row.date))

instance : IsTotal FixtureView dateDesc :=
  ⟨fun a b => le_total b.row.date a.row.date⟩

instance : IsTrans FixtureView dateDesc :=
  ⟨fun _ _ _ h1 h2 => le_trans h2 h1⟩

/-- `DatabaseManager.get_fixtures` (src/database.py lines 206-253): the
left join, the conjunctive optional filters, then `ORDER BY f.date
DESC`. -/
def get_fixtures (db : DB) (team_id : Option Int) (status : Option String)
    (attended_only : Bool) : List FixtureView :=
  ((fixturesJoin db).filter (passesFilters team_id status attended_only)).insertionSort
    dateDesc

/-- The inner join `attended_matches am JOIN fixtures f ON am.fixture_id
= f.fixture_id` used by every query of `get_statistics`. -/
def statsJoin (db : DB) : List (AttendanceRow × FixtureRow) :=
  db.attended.flatMap (fun m =>
    (db.fixtures.filter (fun f => f.fixture_id == m.fixture_id)).map (fun f => (m, f)))

/-- The optional team restriction of the `total` and `stadiums` queries
of `get_statistics`: appended only when `team_id` is truthy. -/
def teamScope (db : DB) (team_id : Option Int) : List (AttendanceRow × FixtureRow) :=
  if truthyInt team_id then
    (statsJoin db).filter (fun p =>
      p.2.home_team_id == team_id || p.2.away_team_id == team_id)
  else statsJoin db

/-- The WHERE clause of the wins/draws/losses query (src/database.py
lines 303-304): team played home or away, and status is finished. -/
def wdlScope (db : DB) (team_id : Option Int) : List (AttendanceRow × FixtureRow) :=
  (statsJoin db).filter (fun p =>
    (p.2.home_team_id == team_id || p.2.away_team_id == team_id) &&
      p.2.status == "finished")

/-- The wins CASE of `get_statistics` (src/database.py lines 287-291). -/
def winCond (team_id : Option Int) (f : FixtureRow) : Bool :=
  (f.home_team_id == team_id && sqlGt f.home_goals f.away_goals) ||
  (f.away_team_id == team_id && sqlGt f.away_goals f.home_goals)

/-- The draws CASE of `get_statistics` (src/database.py lines 292-295). -/
def drawCond (f : FixtureRow) : Bool :=
  sqlEq f.home_goals f.away_goals && f.status == "finished"

/-- The losses CASE of `get_statistics` (src/database.py lines 296-300). -/
def lossCond (team_id : Option Int) (f : FixtureRow) : Bool :=
  (f.home_team_id == team_id && sqlLt f.home_goals f.away_goals) ||
  (f.away_team_id == team_id && sqlLt f.away_goals f.home_goals)

/-- One row of the `stadiums` aggregation of `get_statistics`. -/
structure StadiumRow where
  venue : Option String
  venue_city : Option String
  visits : Nat
  deriving DecidableEq

/-- The `ORDER BY visits DESC` relation of the stadium query. -/
def visitsDesc (a b : StadiumRow) : Prop := b.visits ≤ a.visits

instance : DecidableRel visitsDesc := fun a b =>
  inferInstanceAs (Decidable (b.visits ≤ a.visits))

/-- The stadium query of `get_statistics` (src/database.py lines
315-330): the attended join, optionally team-scoped, grouped by
`(venue, venue_city)` with a visit count and ordered by descending
count. -/
def stadiumsOf (db : DB) (team_id : Option Int) : List StadiumRow :=
  let rows := teamScope db team_id
  let keys := (rows.map (fun p => (p.2.venue, p.2.venue_city))).dedup
  (keys.map (fun k =>
      ⟨k.1, k.2, rows.countP (fun p => (p.2.venue, p.2.venue_city) == k)⟩)).insertionSort
    visitsDesc

/-- The result of `get_statistics`: the Python dict carries the
`wins`/`draws`/`losses` keys only when `team_id` is truthy, modelled as
`Option` fields that are `some` exactly in that case. -/
structure Stats where
  total_attended : Nat
  wins? : Option Nat
  draws? : Option Nat
  losses? : Option Nat
  stadiums : List StadiumRow
  deriving DecidableEq

/-- `DatabaseManager.get_statistics` (src/database.py lines 255-332):
`total_attended` is the COUNT over the attended join (team-scoped when
`team_id` is truthy); the wins/draws/losses SUMs of CASEs over the
finished team-scoped join are present only when `team_id` is truthy;
`stadiums` is the venue aggregation. -/
def get_statistics (db : DB) (team_id : Option Int) : Stats :=
  { total_attended := (teamScope db team_id).length
    wins? :=
      if truthyInt team_id then
        some ((wdlScope db team_id).countP (fun p => winCond team_id p.2))
      else none
    draws? :=
      if truthyInt team_id then
        some ((wdlScope db team_id).countP (fun p => drawCond p.2))
      else none
    losses? :=
      if truthyInt team_id then
        some ((wdlScope db team_id).countP (fun p => lossCond team_id p.2))
      else none
    stadiums := stadiumsOf db team_id }

/-! ### The fixture normalizer (src/api_client.py) -/

/-- The `fixture.venue` substructure of a raw remote record.  In every
raw structure a `none` field models an absent dict key, so the
`dict.get` defaults of `parse_fixture` apply. -/
structure RawVenue where
  name : Option String
  city : Option String
  deriving DecidableEq

/-- The `fixture.status` substructure of a raw remote record. -/
structure RawStatus where
  short : Option String
  long : Option String
  deriving DecidableEq

/-- The `fixture` substructure of a raw remote record. -/
structure RawFixtureObj where
  id : Option Int
  date : Option String
  timestamp : Option Int
  venue : Option RawVenue
  status : Option RawStatus
  deriving DecidableEq

/-- One side of the `teams` substructure. -/
structure RawTeam where
  id : Option Int
  name : Option String
  deriving DecidableEq

/-- The `teams` substructure of a raw remote record. -/
structure RawTeams where
  home : Option RawTeam
  away : Option RawTeam
  deriving DecidableEq

/-- The `goals` substructure of a raw remote record. -/
structure RawGoals where
  home : Option Int
  away : Option Int
  deriving DecidableEq

/-- The `league` substructure of a raw remote record. -/
structure RawLeague where
  id : Option Int
  name : Option String
  season : Option Int
  round : Option String
  deriving DecidableEq

/-- A home/away pair inside the `score` substructure. -/
structure RawScorePair where
  home : Option Int
  away : Option Int
  deriving DecidableEq

/-- The `score` substructure of a raw remote record. -/
structure RawScore where
  halftime : Option RawScorePair
  fulltime : Option RawScorePair
  deriving DecidableEq

/-- A raw fixture record as returned by the remote data source: the five
nested objects `parse_fixture` reads, any of which may be absent. -/
structure RawFixtureRecord where
  fixture : Option RawFixtureObj
  teams : Option RawTeams
  goals : Option RawGoals
  league : Option RawLeague
  score : Option RawScore
  deriving DecidableEq

/-- Python `str.replace('Z', '+00:00')` applied by `parse_fixture` to
the raw date (a single-character pattern, so a character-wise expansion
is exact). -/
def replaceZ (s : String) : String :=
  String.join (s.toList.map (fun c => if c = 'Z' then "+00:00" else String.singleton c))

/-- Abstraction of Python `datetime.fromisoformat`: the embedding keeps
the property the repository relies on, that parsing succeeds exactly on
well-formed ISO-8601 strings and raises ValueError otherwise — in
particular on the empty string that a missing `date` key defaults to.
The check validates the mandatory `YYYY-MM-DD` leading date. -/
def isValidISODate (s : String) : Bool :=
  let cs := s.toList
  decide (10 ≤ cs.length) &&
  (cs.take 4).all Char.isDigit &&
  (cs.getD 4 ' ' == '-') &&
  ((cs.drop 5).take 2).all Char.isDigit &&
  (cs.getD 7 ' ' == '-') &&
  ((cs.drop 8).take 2).all Char.isDigit

/-- The display string `fixture_date.strftime('%d/%m/%Y %H:%M')`,
modelled by slicing the day, month, year and clock out of the parsed
ISO text. -/
def formatDayMonthYear (s : String) : String :=
  let cs := s.toList
  String.mk ((cs.drop 8).take 2) ++ "/" ++ String.mk ((cs.drop 5).take 2) ++ "/" ++
    String.mk (cs.take 4) ++ " " ++ String.mk ((cs.drop 11).take 5)

/-- The status mapping of `parse_fixture` (src/api_client.py lines
155-163) from the remote short status code. -/
def match_status (s : String) : String :=
  if s = "FT" ∨ s = "AET" ∨ s = "PEN" then "finished"
  else if s = "1H" ∨ s = "2H" ∨ s = "HT" ∨ s = "ET" ∨ s = "P" ∨ s = "LIVE" then
    "in_progress"
  else if s = "TBD" ∨ s = "NS" then "scheduled"
  else "postponed"

/-- The normalized record returned by `parse_fixture`
(src/api_client.py lines 165-188). -/
structure ParsedFixture where
  fixture_id : Option Int
  date : String
  date_formatted : String
  timestamp : Option Int
  venue : String
  venue_city : String
  status : String
  status_long : String
  league_id : Option Int
  league_name : String
  season : Option Int
  round : String
  home_team_id : Option Int
  home_team_name : String
  away_team_id : Option Int
  away_team_name : String
  home_goals : Option Int
  away_goals : Option Int
  halftime_home : Option Int
  halftime_away : Option Int
  fulltime_home : Option Int
  fulltime_away : Option Int
  deriving DecidableEq

/-- `APIFootballClient.parse_fixture` (src/api_client.py lines 134-188).
Every absent nested field defaults through `dict.get`; the one
side-effect-free failure point is `datetime.fromisoformat` on the
(possibly defaulted-empty) date string, which raises ValueError on a
malformed input and is modelled as the `Except.error` branch. -/
def parse_fixture (r : RawFixtureRecord) : Except String ParsedFixture :=
  let dateStr := replaceZ ((r.fixture.bind (fun f => f.date)).getD "")
  if isValidISODate dateStr then
    .ok
      { fixture_id := r.fixture.bind (fun f => f.id)
        date := dateStr
        date_formatted := formatDayMonthYear dateStr
        timestamp := r.fixture.bind (fun f => f.timestamp)
        venue := ((r.fixture.bind (fun f => f.venue)).bind (fun v => v.name)).getD "N/A"
        venue_city := ((r.fixture.bind (fun f => f.venue)).bind (fun v => v.city)).getD "N/A"
        status := match_status (((r.fixture.bind (fun f => f.status)).bind
          (fun st => st.short)).getD "")
        status_long := ((r.fixture.bind (fun f => f.status)).bind
          (fun st => st.long)).getD ""
        league_id := r.league.bind (fun l => l.id)
        league_name := (r.league.bind (fun l => l.name)).getD ""
        season := r.league.bind (fun l => l.season)
        round := (r.league.bind (fun l => l.round)).getD ""
        home_team_id := (r.teams.bind (fun t => t.home)).bind (fun t => t.id)
        home_team_name := ((r.teams.bind (fun t => t.home)).bind (fun t => t.name)).getD ""
        away_team_id := (r.teams.bind (fun t => t.away)).bind (fun t => t.id)
        away_team_name := ((r.teams.bind (fun t => t.away)).bind (fun t => t.name)).getD ""
        home_goals := r.goals.bind (fun g => g.home)
        away_goals := r.goals.bind (fun g => g.away)
        halftime_home := (r.score.bind (fun s => s.halftime)).bind (fun p => p.home)
        halftime_away := (r.score.bind (fun s => s.halftime)).bind (fun p => p.away)
        fulltime_home := (r.score.bind (fun s => s.fulltime)).bind (fun p => p.home)
        fulltime_away := (r.score.bind (fun s => s.fulltime)).bind (fun p => p.away) }
  else .error "Invalid isoformat string"

/-! ### The sync orchestrator (src/service.py) -/

/-- The values `insert_fixture` extracts from a normalized record's dict
(the extra display keys `date_formatted` and `league_name` are not
stored). -/
def dataOfParsed (p : ParsedFixture) : FixtureData :=
  { fixture_id := p.fixture_id
    date := p.date
    timestamp := p.timestamp
    venue := some p.venue
    venue_city := some p.venue_city
    status := p.status
    status_long := some p.status_long
    league_id := p.league_id
    season := p.season
    round := some p.round
    home_team_id := p.home_team_id
    home_team_name := p.home_team_name
    away_team_id := p.away_team_id
    away_team_name := p.away_team_name
    home_goals := p.home_goals
    away_goals := p.away_goals
    halftime_home := p.halftime_home
    halftime_away := p.halftime_away
    fulltime_home := p.fulltime_home
    fulltime_away := p.fulltime_away }

/-- The fixed competition table `FootballMatchService.COMPETITIONS`
(src/service.py lines 12-18): key, numeric id, display name. -/
def COMPETITIONS : List (String × Int × String) :=
  [("brasileirao_a", 71, "Brasileirão Série A"),
   ("brasileirao_b", 72, "Brasileirão Série B"),
   ("copa_do_brasil", 73, "Copa do Brasil"),
   ("libertadores", 13, "Copa Libertadores"),
   ("sul_americana", 11, "Copa Sul-Americana")]

/-- The per-record loop of `sync_team_fixtures` (src/service.py lines
100-105): each raw record is normalized and upserted, counting the
upsert when it reports success (it always does).  A ValueError raised by
`parse_fixture` aborts the loop and propagates to the boundary handler
(`none` result), but the writes already made persist. -/
def syncLoop (now : Int) : DB → List RawFixtureRecord → Nat → DB × Option Nat
  | db, [], n => (db, some n)
  | db, r :: rs, n =>
    match parse_fixture r with
    | .error _ => (db, none)
    | .ok p =>
      let step := insert_fixture db (dataOfParsed p) now
      if step.2 then syncLoop now step.1 rs (n + 1) else syncLoop now step.1 rs n

/-- `FootballMatchService.sync_team_fixtures` (src/service.py lines
68-113).  The remote fetch is I/O and enters as the explicit `fetched`
argument (`Except.error` for a transport or remote-reported failure).
An unknown competition key raises ValueError before anything else
happens; every exception is caught at the boundary and reported as the
zero tuple, leaving whatever state the body reached.  `team_id` and
`season` are only forwarded to the fetch and do not influence the rest.
Returns the final store and `(total fetched, reconciled count)`. -/
def sync_team_fixtures (db : DB) (team_id : Int) (competition : String) (season : Int)
    (fetched : Except String (List RawFixtureRecord)) (now : Int) :
    DB × (Nat × Nat) :=
  match COMPETITIONS.find? (fun c => c.1 == competition) with
  | none => (db, (0, 0))
  | some _ =>
    match fetched with
    | .error _ => (db, (0, 0))
    | .ok fixtures =>
      match syncLoop now db fixtures 0 with
      | (db1, some n) => (db1, (fixtures.length, n))
      | (db1, none) => (db1, (0, 0))

/-! ### Concrete sample states used by witnesses and counterexamples -/

/-- A fully populated fixture record as `insert_fixture` receives it. -/
def fdA : FixtureData :=
  { fixture_id := some 1
    date := "2024-05-10 20:00:00+00:00"
    timestamp := some 1715371200
    venue := some "Maracana"
    venue_city := some "Rio de Janeiro"
    status := "finished"
    status_long := some "Match Finished"
    league_id := some 71
    season := some 2024
    round := some "Regular Season - 5"
    home_team_id := some 1
    home_team_name := "Flamengo"
    away_team_id := some 2
    away_team_name := "Palmeiras"
    home_goals := some 2
    away_goals := some 1
    halftime_home := some 1
    halftime_away := some 0
    fulltime_home := some 2
    fulltime_away := some 1 }

/-- The fixture row of `fdA` as first stored at clock 5. -/
def rowA : FixtureRow := rowOfData 1 fdA 5

/-- A store holding only `rowA`. -/
def dbA : DB := ⟨[rowA], []⟩

/-- A store holding `rowA` together with an attendance mark for it. -/
def dbB : DB := ⟨[rowA], [⟨1, 3, none⟩]⟩

/-- A store holding one dangling attendance mark and no fixture rows. -/
def dbDangling : DB := ⟨[], [⟨7, 0, none⟩]⟩

/-- A finished, attended fixture whose goal columns are NULL. -/
def rowNullGoals : FixtureRow :=
  { fixture_id := 9
    date := "2024-06-01 16:00:00+00:00"
    timestamp := none
    venue := none
    venue_city := none
    status := "finished"
    status_long := none
    league_id := none
    season := none
    round := none
    home_team_id := some 1
    home_team_name := "Flamengo"
    away_team_id := some 2
    away_team_name := "Palmeiras"
    home_goals := none
    away_goals := none
    halftime_home := none
    halftime_away := none
    fulltime_home := none
    fulltime_away := none
    created_at := 0
    updated_at := 0 }

/-- A store holding the NULL-goal fixture and an attendance mark for it. -/
def dbNullGoals : DB := ⟨[rowNullGoals], [⟨9, 0, none⟩]⟩

/-- A raw remote record with every nested object absent. -/
def emptyRawRecord : RawFixtureRecord := ⟨none, none, none, none, none⟩

/-- A raw remote record carrying only a valid UTC date. -/
def rawMinimal : RawFixtureRecord :=
  ⟨some ⟨none, some "2024-05-10T20:00:00Z", none, none, none⟩, none, none, none, none⟩

/-! ### Claim theorems -/

/-- C8: the normalizer maps the remote short status code exactly as:
FT, AET, PEN to finished; 1H, 2H, HT, ET, P, LIVE to in_progress; TBD,
NS to scheduled; every other code, including the empty default taken
when the code is missing, to postponed — and the status stored by
`parse_fixture` is exactly this mapping of the defaulted short code. -/
theorem match_status_mapping :
    (∀ s : String, s = "FT" ∨ s = "AET" ∨ s = "PEN" → match_status s = "finished")
    ∧ (∀ s : String, s = "1H" ∨ s = "2H" ∨ s = "HT" ∨ s = "ET" ∨ s = "P" ∨ s = "LIVE" →
        match_status s = "in_progress")
    ∧ (∀ s : String, s = "TBD" ∨ s = "NS" → match_status s = "scheduled")
    ∧ (∀ s : String,
        ¬(s = "FT" ∨ s = "AET" ∨ s = "PEN" ∨ s = "1H" ∨ s = "2H" ∨ s = "HT" ∨ s = "ET" ∨
          s = "P" ∨ s = "LIVE" ∨ s = "TBD" ∨ s = "NS") →
        match_status s = "postponed")
    ∧ match_status "" = "postponed"
    ∧ (∀ r : RawFixtureRecord, ∀ v : ParsedFixture, parse_fixture r = Except.ok v →
        v.status = match_status
          (((r.fixture.bind (fun f => f.status)).bind (fun st => st.short)).getD "")) := by
  refine ⟨?_, ?_, ?_, ?_, by decide, ?_⟩
  · rintro s (rfl | rfl | rfl) <;> rfl
  · rintro s (rfl | rfl | rfl | rfl | rfl | rfl) <;> rfl
  · rintro s (rfl | rfl) <;> rfl
  · intro s hs
    unfold match_status
    rw [if_neg (fun h => hs (by tauto)), if_neg (fun h => hs (by tauto)),
      if_neg (fun h => hs (by tauto))]
  · intro r v hv
    unfold parse_fixture at hv
    by_cases hd : isValidISODate (replaceZ ((r.fixture.bind (fun f => f.date)).getD ""))
    · rw [if_pos hd] at hv
      cases hv
      rfl
    · rw [if_neg hd] at hv
      cases hv

/-- C8 witness: an unmapped code such as PST falls through to
postponed. -/
theorem match_status_mapping_witness : match_status "PST" = "postponed" :=
  match_status_mapping.2.2.2.1 "PST" (by decide)

/-- C10: a team id of 0 is falsy for the Python truthiness tests of
`get_fixtures` and `get_statistics`, so it behaves exactly like an
omitted team id: no home-or-away restriction is applied and the
wins/draws/losses keys are absent from the statistics. -/
theorem team_id_zero_like_omitted (db : DB) (status : Option String)
    (attended_only : Bool) :
    get_fixtures db (some 0) status attended_only =
      get_fixtures db none status attended_only
    ∧ get_statistics db (some 0) = get_statistics db none
    ∧ (get_statistics db (some 0)).wins? = none
    ∧ (get_statistics db (some 0)).draws? = none
    ∧ (get_statistics db (some 0)).losses? = none :=
  ⟨rfl, rfl, rfl, rfl, rfl⟩

/-- C6: resolving an unknown competition key raises ValueError before
any fetch or write; the boundary handler turns it into the tuple (0, 0)
with the store untouched. -/
theorem sync_unknown_competition (db : DB) (team_id : Int) (competition : String)
    (season : Int) (fetched : Except String (List RawFixtureRecord)) (now : Int)
    (h : ∀ c ∈ COMPETITIONS, c.1 ≠ competition) :
    sync_team_fixtures db team_id competition season fetched now = (db, (0, 0)) := by
  have hfind : COMPETITIONS.find? (fun c => c.1 == competition) = none :=
    List.find?_eq_none.mpr (fun c hc => by simpa using h c hc)
  unfold sync_team_fixtures
  rw [hfind]

/-- C6 witness: syncing under the key premier_league, which is not in
the competition table, returns (0, 0) and leaves the store as it was. -/
theorem sync_unknown_competition_witness :
    sync_team_fixtures dbA 1 "premier_league" 2024 (Except.ok []) 10 = (dbA, (0, 0)) :=
  sync_unknown_competition dbA 1 "premier_league" 2024 (Except.ok []) 10 (by decide)

/-- C4: marking attendance on a fixture with no existing mark stores one
mark and returns true; marking it again returns false (the absorbed
uniqueness violation) and changes nothing, and exactly one mark for that
fixture exists afterwards. -/
theorem mark_attended_twice (db : DB) (fid : Int) (n1 n2 : Option String) (t1 t2 : Int)
    (h : db.attended.any (fun m => m.fixture_id == fid) = false) :
    (mark_attended db fid n1 t1).2 = true
    ∧ (mark_attended db fid n1 t1).1.attended = db.attended ++ [⟨fid, t1, n1⟩]
    ∧ (mark_attended (mark_attended db fid n1 t1).1 fid n2 t2).2 = false
    ∧ (mark_attended (mark_attended db fid n1 t1).1 fid n2 t2).1 =
        (mark_attended db fid n1 t1).1
    ∧ (mark_attended (mark_attended db fid n1 t1).1 fid n2 t2).1.attended.countP
        (fun m => m.fixture_id == fid) = 1 := by
  have h1 : mark_attended db fid n1 t1 =
      ({ db with attended := db.attended ++ [⟨fid, t1, n1⟩] }, true) := by
    unfold mark_attended
    rw [h]
    rfl
  have hany : (db.attended ++ [(⟨fid, t1, n1⟩ : AttendanceRow)]).any
      (fun m => m.fixture_id == fid) = true := by
    rw [List.any_append, h]
    simp
  have h2 : mark_attended (mark_attended db fid n1 t1).1 fid n2 t2 =
      ((mark_attended db fid n1 t1).1, false) := by
    rw [h1]
    unfold mark_attended
    rw [hany]
    rfl
  refine ⟨by rw [h1], by rw [h1], by rw [h2], by rw [h2], ?_⟩
  rw [h2, h1]
  have hzero : db.attended.countP (fun m => m.fixture_id == fid) = 0 :=
    List.countP_eq_zero.mpr (List.any_eq_false.mp h)
  simp [List.countP_append, hzero]

/-- C4 witness: marking fixture 7 twice on an empty store returns true
then false. -/
theorem mark_attended_twice_witness :
    (mark_attended ⟨[], []⟩ 7 none 1).2 = true
    ∧ (mark_attended (mark_attended ⟨[], []⟩ 7 none 1).1 7 (some "great game") 2).2 =
        false :=
  ⟨(mark_attended_twice ⟨[], []⟩ 7 none (some "great game") 1 2 rfl).1,
   (mark_attended_twice ⟨[], []⟩ 7 none (some "great game") 1 2 rfl).2.2.1⟩

/-- C1 counterexample: upserting a record whose fixture_id is already
stored does not preserve the row's original created_at.  The row first
stored at clock 5 carries created_at 5; re-upserting the same record at
clock 10 leaves a row whose created_at is 10, because INSERT OR REPLACE
replaces the whole row and created_at, absent from the column list,
takes its CURRENT_TIMESTAMP default. -/
theorem insert_fixture_resets_created_at :
    dbA.fixtures.map (fun r => r.created_at) = [5]
    ∧ (insert_fixture dbA fdA 10).1.fixtures.map (fun r => r.created_at) = [10]
    ∧ (insert_fixture dbA fdA 10).1.fixtures.map (fun r => r.created_at) ≠
        dbA.fixtures.map (fun r => r.created_at) := by
  refine ⟨rfl, rfl, by decide⟩

/-- C1 amended: upserting a record whose fixture_id already exists
overwrites all fields of the row, refreshes updated_at, and also resets
created_at to the current timestamp (it is not preserved); the call
returns true, afterwards exactly one row with that fixture_id exists,
and every other row is untouched. -/
theorem insert_fixture_upsert (db : DB) (fd : FixtureData) (i : Int) (now : Int)
    (hid : fd.fixture_id = some i)
    (hex : ∃ r ∈ db.fixtures, r.fixture_id = i) :
    (insert_fixture db fd now).2 = true
    ∧ (insert_fixture db fd now).1.fixtures.filter (fun r => r.fixture_id == i) =
        [rowOfData i fd now]
    ∧ (rowOfData i fd now).updated_at = now
    ∧ (rowOfData i fd now).created_at = now
    ∧ (insert_fixture db fd now).1.fixtures.filter (fun r => r.fixture_id != i) =
        db.fixtures.filter (fun r => r.fixture_id != i)
    ∧ (insert_fixture db fd now).1.attended = db.attended := by
  clear hex
  have hins : insert_fixture db fd now =
      ({ db with fixtures :=
          db.fixtures.filter (fun r => r.fixture_id != i) ++ [rowOfData i fd now] },
        true) := by
    unfold insert_fixture
    rw [hid]
  refine ⟨by rw [hins], ?_, rfl, rfl, ?_, by rw [hins]⟩
  · rw [hins]
    simp only [List.filter_append, List.filter_filter]
    have h1 : db.fixtures.filter
        (fun a => a.fixture_id == i && a.fixture_id != i) = [] := by
      apply List.filter_eq_nil_iff.mpr
      intro a _
      simp [bne]
    have h2 : [rowOfData i fd now].filter (fun r => r.fixture_id == i) =
        [rowOfData i fd now] := by
      simp [rowOfData]
    rw [h1, h2, List.nil_append]
  · rw [hins]
    simp only [List.filter_append, List.filter_filter]
    have h1 : db.fixtures.filter
        (fun a => a.fixture_id != i && a.fixture_id != i) =
        db.fixtures.filter (fun r => r.fixture_id != i) :=
      List.filter_congr (fun a _ => Bool.and_self _)
    have h2 : [rowOfData i fd now].filter (fun r => r.fixture_id != i) = [] := by
      simp [rowOfData]
    rw [h1, h2, List.append_nil]

/-- C1 witness: re-upserting the stored record of `dbA` at clock 10
returns true and leaves exactly the freshly built row under id 1. -/
theorem insert_fixture_upsert_witness :
    (insert_fixture dbA fdA 10).2 = true
    ∧ (insert_fixture dbA fdA 10).1.fixtures.filter (fun r => r.fixture_id == 1) =
        [rowOfData 1 fdA 10] :=
  ⟨(insert_fixture_upsert dbA fdA 1 10 rfl ⟨rowA, List.Mem.head _, rfl⟩).1,
   (insert_fixture_upsert dbA fdA 1 10 rfl ⟨rowA, List.Mem.head _, rfl⟩).2.1⟩

/-- C9: the upsert never touches the attendance table, and a fixture
that already has an attendance mark is still returned by the
attended-only query after being re-upserted. -/
theorem insert_fixture_preserves_attendance (db : DB) (fd : FixtureData) (now i : Int)
    (hid : fd.fixture_id = some i)
    (hmark : db.attended.any (fun m => m.fixture_id == i) = true) :
    (insert_fixture db fd now).1.attended = db.attended
    ∧ ∃ v ∈ get_fixtures (insert_fixture db fd now).1 none none true,
        v.row.fixture_id = i ∧ v.attended = 1 := by
  have hatt : (insert_fixture db fd now).1.attended = db.attended := by
    unfold insert_fixture
    rw [hid]
  refine ⟨hatt, ?_⟩
  obtain ⟨m, hm, hbeq⟩ := List.any_eq_true.mp hmark
  set db1 := (insert_fixture db fd now).1 with hdb1
  have hrow : rowOfData i fd now ∈ db1.fixtures := by
    rw [hdb1]
    unfold insert_fixture
    rw [hid]
    exact List.mem_append_right _ (List.Mem.head _)
  have hms : m ∈ db1.attended.filter
      (fun m' => m'.fixture_id == (rowOfData i fd now).fixture_id) := by
    rw [hatt]
    exact List.mem_filter.mpr ⟨hm, hbeq⟩
  refine ⟨⟨rowOfData i fd now, 1, some m.attended_date, m.notes⟩, ?_, rfl, rfl⟩
  unfold get_fixtures
  rw [List.mem_insertionSort]
  apply List.mem_filter.mpr
  constructor
  · apply List.mem_flatMap.mpr
    refine ⟨rowOfData i fd now, hrow, ?_⟩
    unfold leftJoinRows
    have hne : (db1.attended.filter
        (fun m' => m'.fixture_id == (rowOfData i fd now).fixture_id)).isEmpty = false := by
      rcases hfe : db1.attended.filter
          (fun m' => m'.fixture_id == (rowOfData i fd now).fixture_id) with _ | _
      · rw [hfe] at hms
        cases hms
      · rw [hfe]
        rfl
    simp only [hne, Bool.false_eq_true, if_false]
    exact List.mem_map.mpr ⟨m, hms, rfl⟩
  · rfl

/-- C9 witness: re-upserting the marked fixture of `dbB` keeps its
attendance mark. -/
theorem insert_fixture_preserves_attendance_witness :
    (insert_fixture dbB fdA 10).1.attended = dbB.attended :=
  (insert_fixture_preserves_attendance dbB fdA 10 1 rfl rfl).1

/-- With pairwise distinct fixture ids, the rows matching a given id and
a further condition number one or zero according to whether a match
exists. -/
theorem length_filter_idMatch (fs : List FixtureRow) (q : FixtureRow → Bool) (i : Int)
    (hnd : (fs.map (fun r => r.fixture_id)).Nodup) :
    (fs.filter (fun f => f.fixture_id == i && q f)).length =
      if fs.any (fun f => f.fixture_id == i && q f) then 1 else 0 := by
  induction fs with
  | nil => rfl
  | cons f fs ih =>
    rw [List.map_cons, List.nodup_cons] at hnd
    by_cases hf : (f.fixture_id == i && q f) = true
    · have hfi : f.fixture_id = i := by
        have := (Bool.and_eq_true _ _).mp hf
        exact beq_iff_eq.mp this.1
      have hnil : fs.filter (fun f' => f'.fixture_id == i && q f') = [] := by
        apply List.filter_eq_nil_iff.mpr
        intro a ha hpa
        have hai : a.fixture_id = i := beq_iff_eq.mp ((Bool.and_eq_true _ _).mp hpa).1
        exact hnd.1 (by
          rw [← hfi] at hai
          exact hai ▸ List.mem_map_of_mem (fun r => r.fixture_id) ha)
      rw [List.filter_cons, List.any_cons, hnil]
      simp [hf]
    · have hf2 : (f.fixture_id == i && q f) = false := Bool.eq_false_iff.mpr hf
      rw [List.filter_cons, List.any_cons, hf2]
      simp only [Bool.false_eq_true, if_false, Bool.false_or]
      exact ih hnd.2

/-- Length of the team-and-condition-filtered inner join of marks with
fixtures: with distinct fixture ids it counts the marks having a
matching fixture that passes the condition. -/
theorem joinPairs_length (ams : List AttendanceRow) (fs : List FixtureRow)
    (q : FixtureRow → Bool) (hnd : (fs.map (fun r => r.fixture_id)).Nodup) :
    ((ams.flatMap (fun m => (fs.filter (fun f => f.fixture_id == m.fixture_id)).map
        (fun f => (m, f)))).filter (fun p => q p.2)).length =
      ams.countP (fun m => fs.any (fun f => f.fixture_id == m.fixture_id && q f)) := by
  induction ams with
  | nil => rfl
  | cons m ams ih =>
    rw [List.flatMap_cons, List.filter_append, List.length_append, ih,
      List.countP_cons]
    have hhead : (((fs.filter (fun f => f.fixture_id == m.fixture_id)).map
        (fun f => (m, f))).filter (fun p => q p.2)).length =
        if fs.any (fun f => f.fixture_id == m.fixture_id && q f) then 1 else 0 := by
      rw [List.filter_map, List.length_map, List.filter_filter,
        ← length_filter_idMatch fs q m.fixture_id hnd]
      congr 1
      apply List.filter_congr
      intro a _
      simp only [Function.comp_apply]
      exact Bool.and_comm _ _
    rw [hhead]
    omega

/-- C5 counterexample: an attendance mark whose fixture_id has no
fixture row is not counted by total_attended — the statistics query
joins the marks to the fixtures table with an inner join, so the
dangling mark of `dbDangling` is dropped and the total is 0, not 1. -/
theorem total_attended_excludes_dangling_marks :
    dbDangling.attended.length = 1
    ∧ (get_statistics dbDangling none).total_attended = 0 :=
  ⟨rfl, rfl⟩

/-- C5 amended: total_attended counts the attendance marks whose
fixture_id has a fixture row (the inner join drops dangling marks, which
the design permits to exist); with a truthy team id it counts the marks
on stored fixtures where that team played home or away.  Stated for
stores whose fixture ids are pairwise distinct, which the primary key
guarantees. -/
theorem get_statistics_total_attended (db : DB)
    (hnd : (db.fixtures.map (fun r => r.fixture_id)).Nodup) :
    (get_statistics db none).total_attended =
      db.attended.countP (fun m => db.fixtures.any (fun f => f.fixture_id == m.fixture_id))
    ∧ ∀ t : Int, t ≠ 0 →
      (get_statistics db (some t)).total_attended =
        db.attended.countP (fun m => db.fixtures.any (fun f =>
          f.fixture_id == m.fixture_id &&
            (f.home_team_id == some t || f.away_team_id == some t))) := by
  constructor
  · show (teamScope db none).length = _
    unfold teamScope truthyInt statsJoin
    simp only [Bool.false_eq_true, if_false]
    have := joinPairs_length db.attended db.fixtures (fun _ => true) hnd
    rw [List.filter_true] at this
    rw [this]
    exact List.countP_congr (fun m _ => by simp)
  · intro t ht
    show (teamScope db (some t)).length = _
    have htr : truthyInt (some t) = true := by
      unfold truthyInt
      exact bne_iff_ne.mpr ht
    unfold teamScope
    rw [htr]
    simp only [if_true]
    unfold statsJoin
    exact joinPairs_length db.attended db.fixtures
      (fun f => f.home_team_id == some t || f.away_team_id == some t) hnd

/-- C5 witness: on the store `dbB`, whose single mark sits on a stored
fixture of team 1, the total equals the mark count both unscoped and
scoped to team 1. -/
theorem get_statistics_total_attended_witness :
    (get_statistics dbB none).total_attended =
      dbB.attended.countP (fun m => dbB.fixtures.any (fun f => f.fixture_id == m.fixture_id))
    ∧ (get_statistics dbB (some 1)).total_attended =
      dbB.attended.countP (fun m => dbB.fixtures.any (fun f =>
        f.fixture_id == m.fixture_id &&
          (f.home_team_id == some 1 || f.away_team_id == some 1))) :=
  ⟨(get_statistics_total_attended dbB (by decide)).1,
   (get_statistics_total_attended dbB (by decide)).2 1 (by decide)⟩

/-- For a finished fixture with both goal values recorded and the team
on exactly one side, the three statistics CASEs are mutually exclusive
and exhaustive. -/
theorem wdl_trichotomy (t : Int) (f : FixtureRow) (hg ag : Int)
    (hhg : f.home_goals = some hg) (hag : f.away_goals = some ag)
    (hfin : f.status = "finished")
    (hside : (f.home_team_id = some t ∧ f.away_team_id ≠ some t) ∨
             (f.away_team_id = some t ∧ f.home_team_id ≠ some t)) :
    (winCond (some t) f = true ∧ drawCond f = false ∧ lossCond (some t) f = false) ∨
    (winCond (some t) f = false ∧ drawCond f = true ∧ lossCond (some t) f = false) ∨
    (winCond (some t) f = false ∧ drawCond f = false ∧ lossCond (some t) f = true) := by
  rcases hside with ⟨hh, hna⟩ | ⟨ha, hnh⟩
  · have hna2 : (f.away_team_id == some t) = false := by simpa using hna
    simp only [winCond, drawCond, lossCond, sqlGt, sqlLt, sqlEq, hhg, hag, hh, hna2,
      hfin, beq_self_eq_true, Bool.true_and, Bool.false_and, Bool.or_false,
      Bool.and_true, Bool.and_false]
    rcases lt_trichotomy hg ag with h | h | h
    · refine Or.inr (Or.inr ⟨?_, ?_, ?_⟩) <;>
        simp only [decide_eq_true_eq, decide_eq_false_iff_not, not_lt, beq_eq_false_iff_ne,
          ne_eq] <;> omega
    · refine Or.inr (Or.inl ⟨?_, ?_, ?_⟩) <;>
        simp only [decide_eq_true_eq, decide_eq_false_iff_not, not_lt, beq_iff_eq] <;> omega
    · refine Or.inl ⟨?_, ?_, ?_⟩ <;>
        simp only [decide_eq_true_eq, decide_eq_false_iff_not, not_lt, beq_eq_false_iff_ne,
          ne_eq] <;> omega
  · have hnh2 : (f.home_team_id == some t) = false := by simpa using hnh
    simp only [winCond, drawCond, lossCond, sqlGt, sqlLt, sqlEq, hhg, hag, ha, hnh2,
      hfin, beq_self_eq_true, Bool.true_and, Bool.false_and, Bool.false_or,
      Bool.and_true, Bool.and_false]
    rcases lt_trichotomy hg ag with h | h | h
    · refine Or.inl ⟨?_, ?_, ?_⟩ <;>
        simp only [decide_eq_true_eq, decide_eq_false_iff_not, not_lt, beq_eq_false_iff_ne,
          ne_eq] <;> omega
    · refine Or.inr (Or.inl ⟨?_, ?_, ?_⟩) <;>
        simp only [decide_eq_true_eq, decide_eq_false_iff_not, not_lt, beq_iff_eq] <;> omega
    · refine Or.inr (Or.inr ⟨?_, ?_, ?_⟩) <;>
        simp only [decide_eq_true_eq, decide_eq_false_iff_not, not_lt, beq_eq_false_iff_ne,
          ne_eq] <;> omega

/-- C2 counterexample: the categories are not exhaustive over the
filtered set.  In `dbNullGoals` team 1 has exactly one attended finished
fixture, but its goal columns are NULL, so the SQL comparisons all yield
NULL and the fixture is counted in none of wins, draws or losses. -/
theorem wdl_not_exhaustive_on_null_goals :
    (wdlScope dbNullGoals (some 1)).length = 1
    ∧ (get_statistics dbNullGoals (some 1)).wins? = some 0
    ∧ (get_statistics dbNullGoals (some 1)).draws? = some 0
    ∧ (get_statistics dbNullGoals (some 1)).losses? = some 0 :=
  ⟨rfl, rfl, rfl, rfl⟩

/-- C2 amended: for a truthy team id the wins/draws/losses are the CASE
counts over the attended finished fixtures of the team, and over that
filtered set the three categories are mutually exclusive and exhaustive
for every fixture whose two goal values are both recorded and in which
the team occupies exactly one side; a fixture with a NULL goal value is
counted in no category. -/
theorem get_statistics_wdl (db : DB) (t : Int) (ht : t ≠ 0) :
    (get_statistics db (some t)).wins? =
      some ((wdlScope db (some t)).countP (fun p => winCond (some t) p.2))
    ∧ (get_statistics db (some t)).draws? =
      some ((wdlScope db (some t)).countP (fun p => drawCond p.2))
    ∧ (get_statistics db (some t)).losses? =
      some ((wdlScope db (some t)).countP (fun p => lossCond (some t) p.2))
    ∧ (∀ p ∈ wdlScope db (some t), ∀ hg ag : Int,
        p.2.home_goals = some hg → p.2.away_goals = some ag →
        ¬(p.2.home_team_id = some t ∧ p.2.away_team_id = some t) →
        ((winCond (some t) p.2 = true ∧ drawCond p.2 = false ∧ lossCond (some t) p.2 = false) ∨
         (winCond (some t) p.2 = false ∧ drawCond p.2 = true ∧ lossCond (some t) p.2 = false) ∨
         (winCond (some t) p.2 = false ∧ drawCond p.2 = false ∧
           lossCond (some t) p.2 = true)))
    ∧ (∀ p ∈ wdlScope db (some t), p.2.home_goals = none ∨ p.2.away_goals = none →
        winCond (some t) p.2 = false ∧ drawCond p.2 = false ∧
          lossCond (some t) p.2 = false) := by
  have htr : truthyInt (some t) = true := by
    show (t != 0) = true
    exact bne_iff_ne.mpr ht
  refine ⟨by simp [get_statistics, htr], by simp [get_statistics, htr],
    by simp [get_statistics, htr], ?_, ?_⟩
  · intro p hp hg ag hhg hag hnb
    unfold wdlScope at hp
    obtain ⟨hpj, hcond⟩ := List.mem_filter.mp hp
    rw [Bool.and_eq_true] at hcond
    obtain ⟨hteam, hfin⟩ := hcond
    have hfin2 : p.2.status = "finished" := by simpa using hfin
    have hside : (p.2.home_team_id = some t ∧ p.2.away_team_id ≠ some t) ∨
        (p.2.away_team_id = some t ∧ p.2.home_team_id ≠ some t) := by
      rcases Bool.or_eq_true_iff.mp hteam with hh | ha
      · have hh2 : p.2.home_team_id = some t := by simpa using hh
        exact Or.inl ⟨hh2, fun hc => hnb ⟨hh2, hc⟩⟩
      · have ha2 : p.2.away_team_id = some t := by simpa using ha
        by_cases hh2 : p.2.home_team_id = some t
        · exact absurd ⟨hh2, ha2⟩ hnb
        · exact Or.inr ⟨ha2, hh2⟩
    exact wdl_trichotomy t p.2 hg ag hhg hag hfin2 hside
  · intro p _ hnull
    rcases hnull with hn | hn <;>
      rcases hother : p.2.home_goals with _ | g <;>
      rcases hother2 : p.2.away_goals with _ | g2 <;>
      simp_all [winCond, drawCond, lossCond, sqlGt, sqlLt, sqlEq]

/-- C2 witness: on `dbB`, whose only attended finished fixture is a 2-1
home win for team 1, the wins count is the CASE count over the filtered
set, and that single fixture satisfies the exclusive-exhaustive
partition. -/
theorem get_statistics_wdl_witness :
    (get_statistics dbB (some 1)).wins? =
      some ((wdlScope dbB (some 1)).countP (fun p => winCond (some 1) p.2)) :=
  (get_statistics_wdl dbB 1 (by decide)).1

/-- C3 counterexample: the normalizer does raise on a record with an
absent date.  On the record with every nested object missing, the date
defaults to the empty string and the ISO parse raises ValueError. -/
theorem parse_fixture_raises_on_missing_date :
    parse_fixture emptyRawRecord = Except.error "Invalid isoformat string" := rfl

/-- C3 amended: the normalizer is a pure function whose only failure
point is the date: it succeeds exactly when the (Z-expanded, defaulted)
date string is a well-formed ISO date, and raises on an absent or
malformed date.  On success, every other missing nested field defaults
to the empty string, N/A, null, or the postponed status, rather than
failing. -/
theorem parse_fixture_total_unless_invalid_date (r : RawFixtureRecord) :
    ((parse_fixture r).isOk = true ↔
      isValidISODate (replaceZ ((r.fixture.bind (fun f => f.date)).getD "")) = true)
    ∧ ∀ v : ParsedFixture, parse_fixture r = Except.ok v →
        ((r.fixture.bind (fun f => f.venue) = none → v.venue = "N/A" ∧ v.venue_city = "N/A")
         ∧ (r.teams = none → v.home_team_name = "" ∧ v.away_team_name = ""
              ∧ v.home_team_id = none ∧ v.away_team_id = none)
         ∧ (r.goals = none → v.home_goals = none ∧ v.away_goals = none)
         ∧ (r.league = none → v.league_id = none ∧ v.league_name = ""
              ∧ v.season = none ∧ v.round = "")
         ∧ (r.score = none → v.halftime_home = none ∧ v.halftime_away = none
              ∧ v.fulltime_home = none ∧ v.fulltime_away = none)
         ∧ (r.fixture.bind (fun f => f.status) = none →
              v.status = "postponed" ∧ v.status_long = "")) := by
  by_cases hd : isValidISODate (replaceZ ((r.fixture.bind (fun f => f.date)).getD "")) = true
  · constructor
    · rw [hd]
      unfold parse_fixture
      rw [if_pos hd]
      simp [Except.isOk, Except.toBool]
    · intro v hv
      unfold parse_fixture at hv
      rw [if_pos hd] at hv
      cases hv
      refine ⟨?_, ?_, ?_, ?_, ?_, ?_⟩ <;> intro h <;> rw [h] <;>
        first
          | exact ⟨rfl, rfl⟩
          | exact ⟨rfl, rfl, rfl, rfl⟩
  · have hd2 : isValidISODate (replaceZ ((r.fixture.bind (fun f => f.date)).getD "")) =
        false := Bool.eq_false_iff.mpr hd
    constructor
    · unfold parse_fixture
      rw [if_neg hd]
      simp [Except.isOk, Except.toBool, hd2]
    · intro v hv
      unfold parse_fixture at hv
      rw [if_neg hd] at hv
      cases hv

/-- C3 witness: a record carrying only a valid UTC date parses
successfully, and all its absent nested fields take their defaults. -/
theorem parse_fixture_total_witness :
    (parse_fixture rawMinimal).isOk = true
    ∧ ∀ v : ParsedFixture, parse_fixture rawMinimal = Except.ok v →
        v.venue = "N/A" ∧ v.venue_city = "N/A" :=
  ⟨(parse_fixture_total_unless_invalid_date rawMinimal).1.mpr (by decide),
   fun v hv =>
    ((parse_fixture_total_unless_invalid_date rawMinimal).2 v hv).1 rfl⟩

/-- Every row of the left join has attended = 1 exactly when an
attendance mark for its fixture exists, and its fixture columns are the
columns of a stored fixture. -/
theorem mem_fixturesJoin_attended (db : DB) (v : FixtureView) (h : v ∈ fixturesJoin db) :
    (v.attended = 1 ↔ db.attended.any (fun m => m.fixture_id == v.row.fixture_id) = true)
    ∧ v.row ∈ db.fixtures := by
  obtain ⟨f, hf, hv⟩ := List.mem_flatMap.mp h
  unfold leftJoinRows at hv
  by_cases he : (db.attended.filter (fun m => m.fixture_id == f.fixture_id)).isEmpty = true
  · rw [if_pos he] at hv
    have hnone : db.attended.any (fun m => m.fixture_id == f.fixture_id) = false := by
      rw [List.any_eq_false]
      intro m hm hbeq
      have : m ∈ db.attended.filter (fun m => m.fixture_id == f.fixture_id) :=
        List.mem_filter.mpr ⟨hm, hbeq⟩
      rw [List.isEmpty_iff.mp he] at this
      cases this
    rw [List.mem_singleton] at hv
    subst hv
    constructor
    · constructor
      · intro h0
        cases h0
      · intro hany
        rw [hnone] at hany
        cases hany
    · exact hf
  · rw [if_neg he] at hv
    obtain ⟨m, hm, hveq⟩ := List.mem_map.mp hv
    subst hveq
    obtain ⟨hmm, hbeq⟩ := List.mem_filter.mp hm
    constructor
    · constructor
      · intro _
        exact List.any_eq_true.mpr ⟨m, hmm, hbeq⟩
      · intro _
        rfl
    · exact hf

/-- C7: the query returns the left-joined fixtures ordered by
descending date; the result is a permutation of the join rows passing
the WHERE clause; each truthy filter restricts its own dimension — a
truthy team id forces the team on one of the two sides, a truthy status
forces exactly that status, attendedOnly forces an attendance mark —
and the attended column of every returned row reflects the existence of
a mark for its fixture. -/
theorem get_fixtures_spec (db : DB) (team_id : Option Int) (status : Option String)
    (attended_only : Bool) :
    List.Sorted dateDesc (get_fixtures db team_id status attended_only)
    ∧ (get_fixtures db team_id status attended_only).Perm
        ((fixturesJoin db).filter (passesFilters team_id status attended_only))
    ∧ (∀ t : Int, team_id = some t → t ≠ 0 →
        ∀ v ∈ get_fixtures db team_id status attended_only,
          v.row.home_team_id = some t ∨ v.row.away_team_id = some t)
    ∧ (∀ s : String, status = some s → s ≠ "" →
        ∀ v ∈ get_fixtures db team_id status attended_only, v.row.status = s)
    ∧ (attended_only = true →
        ∀ v ∈ get_fixtures db team_id status attended_only, v.attended = 1)
    ∧ (∀ v ∈ get_fixtures db team_id status attended_only,
        (v.attended = 1 ↔
          db.attended.any (fun m => m.fixture_id == v.row.fixture_id) = true)) := by
  have hmem : ∀ v ∈ get_fixtures db team_id status attended_only,
      v ∈ fixturesJoin db ∧ passesFilters team_id status attended_only v = true := by
    intro v hv
    unfold get_fixtures at hv
    rw [List.mem_insertionSort] at hv
    exact ⟨(List.mem_filter.mp hv).1, (List.mem_filter.mp hv).2⟩
  refine ⟨List.sorted_insertionSort dateDesc _, List.perm_insertionSort dateDesc _,
    ?_, ?_, ?_, ?_⟩
  · rintro t rfl ht v hv
    have hpass := (hmem v hv).2
    unfold passesFilters at hpass
    rw [Bool.and_eq_true, Bool.and_eq_true] at hpass
    have h1 := hpass.1.1
    simp only [teamFilter] at h1
    rw [if_pos (bne_iff_ne.mpr ht)] at h1
    rcases Bool.or_eq_true_iff.mp h1 with hh | ha
    · exact Or.inl (by simpa using hh)
    · exact Or.inr (by simpa using ha)
  · rintro s rfl hs v hv
    have hpass := (hmem v hv).2
    unfold passesFilters at hpass
    rw [Bool.and_eq_true, Bool.and_eq_true] at hpass
    have h2 := hpass.1.2
    simp only [statusFilter] at h2
    rw [if_pos (bne_iff_ne.mpr hs)] at h2
    simpa using h2
  · rintro rfl v hv
    have hpass := (hmem v hv).2
    unfold passesFilters at hpass
    rw [Bool.and_eq_true, Bool.and_eq_true] at hpass
    have h3 := hpass.2
    simpa using h3
  · intro v hv
    exact (mem_fixturesJoin_attended db v (hmem v hv).1).1

/-- C7 witness: on `dbB` with the filters team 1, status finished and
attendedOnly, every returned row has team 1 on one side. -/
theorem get_fixtures_spec_witness :
    ∀ v ∈ get_fixtures dbB (some 1) (some "finished") true,
      v.row.home_team_id = some 1 ∨ v.row.away_team_id = some 1 :=
  (get_fixtures_spec dbB (some 1) (some "finished") true).2.2.1 1 rfl (by decide)

end FootballTracker
